import Mathlib

/-!
Shallow embedding of the comparison-specification layer of the splink
record-linkage library: `comparison_library.py`,
`comparison_template_library.py` and `blocking_rule_creator_utils.py`.

Python lists become Lean `List`s; `None`-able attributes become `Option`;
an attribute that `__init__` only sets on some paths becomes an `Option`
whose `none` means "attribute was never set", so that reading it models a
Python `AttributeError`.  Functions that can raise return
`Except PyError`.  Numeric thresholds (ints and floats in Python) are
modelled uniformly as `ℚ` — no claim depends on float rounding, only on
list lengths, truthiness and ordering.  `ensure_is_iterable` wraps a
scalar into a one-element list and keeps a list as is; the embedding
therefore takes the already-listed form directly.
-/

namespace Splink

/-- Python exceptions raised by this layer. -/
inductive PyError where
  | valueError (msg : String)
  | attributeError (msg : String)
  deriving DecidableEq, Repr

/-- Model of `ColumnExpression`: a base column name plus a chain of
transformations (`regex_extract`, `try_parse_date`), per the source call
sites. -/
inductive ColExpr where
  | raw (name : String)
  | regexExtract (base : ColExpr) (pattern : String)
  | tryParseDate (base : ColExpr) (date_format : Option String)
  deriving DecidableEq, Repr

/-- The `ColumnExpression.regex_extract` as used at the source call sites. -/
def ColExpr.regex_extract (c : ColExpr) (pattern : String) : ColExpr :=
  ColExpr.regexExtract c pattern

/-- The `ColumnExpression.try_parse_date` as used at the source call sites. -/
def ColExpr.try_parse_date (c : ColExpr) (fmt : Option String) : ColExpr :=
  ColExpr.tryParseDate c fmt

/-- Base name of the column underlying an expression. -/
def ColExpr.baseName : ColExpr → String
  | ColExpr.raw n => n
  | ColExpr.regexExtract b _ => b.baseName
  | ColExpr.tryParseDate b _ => b.baseName

/-- Model of `ColumnExpression.name_l`: the left-record alias `<col>_l`. -/
def ColExpr.name_l (c : ColExpr) : String := c.baseName ++ "_l"

/-- The four fuzzy level constructors of `_fuzzy_levels` in
`comparison_template_library.py`. -/
inductive FuzzyLevelKind where
  | damerau_levenshtein
  | jaro
  | jaro_winkler
  | levenshtein
  deriving DecidableEq, Repr

/-- The `ComparisonLevelCreator` variants constructed anywhere in the three
source files (`cll.*` constructor calls).  Keyword arguments that a call
site omits are recorded as `none` / `false` following the library
defaults. -/
inductive ComparisonLevelCreator where
  | NullLevel (col : ColExpr) (valid_string_pattern : Option String)
      (invalid_dates_as_null : Option Bool)
  | ExactMatchLevel (col : ColExpr) (term_frequency_adjustments : Bool)
  | LevenshteinLevel (col : ColExpr) (distance_threshold : ℚ)
  | DamerauLevenshteinLevel (col : ColExpr) (distance_threshold : ℚ)
  | JaroLevel (col : ColExpr) (distance_threshold : ℚ)
  | JaroWinklerLevel (col : ColExpr) (distance_threshold : ℚ)
  | DatediffLevel (col : ColExpr) (date_threshold : ℚ) (date_metric : String)
  | DistanceInKMLevel (lat_col : ColExpr) (long_col : ColExpr)
      (km_threshold : ℚ)
  | CustomLevel (sql_condition : String) (label_for_charts : Option String)
  | And (lhs : ComparisonLevelCreator) (rhs : ComparisonLevelCreator)
  | ElseLevel
  deriving DecidableEq, Repr

/-- Applying an entry of `_fuzzy_levels` (a class object in Python) to a
column expression and a threshold, as in `self.fuzzy_level(col, threshold)`. -/
def FuzzyLevelKind.apply (k : FuzzyLevelKind) (col : ColExpr) (threshold : ℚ) :
    ComparisonLevelCreator :=
  match k with
  | FuzzyLevelKind.damerau_levenshtein =>
      ComparisonLevelCreator.DamerauLevenshteinLevel col threshold
  | FuzzyLevelKind.jaro => ComparisonLevelCreator.JaroLevel col threshold
  | FuzzyLevelKind.jaro_winkler =>
      ComparisonLevelCreator.JaroWinklerLevel col threshold
  | FuzzyLevelKind.levenshtein =>
      ComparisonLevelCreator.LevenshteinLevel col threshold

/-- A level is a fuzzy string-similarity level (one of the four
`_fuzzy_levels` constructors). -/
def ComparisonLevelCreator.isFuzzy : ComparisonLevelCreator → Bool
  | ComparisonLevelCreator.LevenshteinLevel _ _ => true
  | ComparisonLevelCreator.DamerauLevenshteinLevel _ _ => true
  | ComparisonLevelCreator.JaroLevel _ _ => true
  | ComparisonLevelCreator.JaroWinklerLevel _ _ => true
  | _ => false

/-- The dict `_fuzzy_levels` of `comparison_template_library.py`, as a
lookup returning `none` on a missing key (Python raises `KeyError`, which
the callers catch and convert). -/
def fuzzyLevelsDict (metric : String) : Option FuzzyLevelKind :=
  if metric = "damerau_levenshtein" then some FuzzyLevelKind.damerau_levenshtein
  else if metric = "jaro" then some FuzzyLevelKind.jaro
  else if metric = "jaro_winkler" then some FuzzyLevelKind.jaro_winkler
  else if metric = "levenshtein" then some FuzzyLevelKind.levenshtein
  else none

/-- The `_AVAILABLE_METRICS_STRING`: the metric names single quoted and
comma-separated. -/
def AVAILABLE_METRICS_STRING : String :=
  "\x27damerau_levenshtein\x27, \x27jaro\x27, \x27jaro_winkler\x27, \x27levenshtein\x27"

/-- The `ValueError` message raised by `DateComparison.__init__` and
`EmailComparison.__init__` for an unknown fuzzy metric (the Python
f-string `f"Invalid value for {fuzzy_metric=}. ..."`). -/
def invalidFuzzyMetricMessage (fuzzy_metric : String) : String :=
  "Invalid value for fuzzy_metric=\x27" ++ fuzzy_metric ++
    "\x27.  Must choose one of: " ++ AVAILABLE_METRICS_STRING ++ "."

/-- Model of `", ".join(map(str, thresholds))` over rational thresholds. -/
def commaSeparated (l : List ℚ) : String :=
  String.intercalate ", " (l.map toString)

/-- The `"s" if len(l) > 1 else ""` plural marker used by descriptions. -/
def pluralS (l : List ℚ) : String := if l.length > 1 then "s" else ""

end Splink

namespace Splink

/-! ### `comparison_library.py` -/

/-- A member of a `CustomComparison.comparison_levels` list: a
`ComparisonLevelCreator`, a `dict` (which must bind the keyword arguments
of `CustomLevel`), or a value of any other Python type, recorded with its
`repr` and `type` strings. -/
inductive ComparisonLevelInput where
  | creator (c : ComparisonLevelCreator)
  | dict (sql_condition : String) (label_for_charts : Option String)
  | otherValue (entryRepr : String) (typeName : String)
  deriving DecidableEq, Repr

/-- The `ValueError` message of `CustomComparison._convert_to_creator`. -/
def convertToCreatorErrorMessage (entryRepr typeName : String) : String :=
  "`comparison_levels` entries must be `dict` or `ComparisonLevelCreator, " ++
    "but found type " ++ typeName ++ " for entry " ++ entryRepr

/-- The `CustomComparison`: output column name, caller-supplied levels, and an
optional description (attributes set by `__init__`). -/
structure CustomComparison where
  output_column_name : String
  comparison_levels : List ComparisonLevelInput
  description : Option String
  deriving DecidableEq, Repr

/-- The `CustomComparison._convert_to_creator`: keep a
`ComparisonLevelCreator`, deserialize a `dict` into a `CustomLevel` by
keyword expansion, and raise `ValueError` for anything else. -/
def CustomComparison.convert_to_creator (cl : ComparisonLevelInput) :
    Except PyError ComparisonLevelCreator :=
  match cl with
  | ComparisonLevelInput.creator c => Except.ok c
  | ComparisonLevelInput.dict sql lbl =>
      Except.ok (ComparisonLevelCreator.CustomLevel sql lbl)
  | ComparisonLevelInput.otherValue v t =>
      Except.error (PyError.valueError (convertToCreatorErrorMessage v t))

/-- The `CustomComparison.create_comparison_levels`: the list comprehension
`[self._convert_to_creator(cl) for cl in self._comparison_levels]`, which
raises at the first entry `_convert_to_creator` rejects. -/
def CustomComparison.create_comparison_levels (self : CustomComparison) :
    Except PyError (List ComparisonLevelCreator) :=
  self.comparison_levels.mapM CustomComparison.convert_to_creator

/-- The `CustomComparison.create_description`. -/
def CustomComparison.create_description (self : CustomComparison) : String :=
  match self.description with
  | some d => d
  | none => "Comparison for " ++ self.output_column_name

/-- The `ExactMatch` attributes. -/
structure ExactMatch where
  col_expression : ColExpr
  term_frequency_adjustments : Bool
  deriving DecidableEq, Repr

/-- The `ExactMatch.create_comparison_levels`. -/
def ExactMatch.create_comparison_levels (self : ExactMatch) :
    List ComparisonLevelCreator :=
  [ComparisonLevelCreator.NullLevel self.col_expression none none,
   ComparisonLevelCreator.ExactMatchLevel self.col_expression
     self.term_frequency_adjustments,
   ComparisonLevelCreator.ElseLevel]

/-- The `LevenshteinAtThresholds` attributes. -/
structure LevenshteinAtThresholds where
  col_expression : ColExpr
  thresholds : List ℚ
  deriving DecidableEq, Repr

/-- The `LevenshteinAtThresholds.create_comparison_levels`. -/
def LevenshteinAtThresholds.create_comparison_levels
    (self : LevenshteinAtThresholds) : List ComparisonLevelCreator :=
  [ComparisonLevelCreator.NullLevel self.col_expression none none,
   ComparisonLevelCreator.ExactMatchLevel self.col_expression false]
  ++ self.thresholds.map
      (fun threshold =>
        ComparisonLevelCreator.LevenshteinLevel self.col_expression threshold)
  ++ [ComparisonLevelCreator.ElseLevel]

/-- The `DatediffAtThresholds` attributes. -/
structure DatediffAtThresholds where
  col_expression : ColExpr
  date_metrics : List String
  date_thresholds : List ℚ
  cast_strings_to_dates : Bool
  date_format : Option String
  term_frequency_adjustments : Bool
  invalid_dates_as_null : Bool
  deriving DecidableEq, Repr

/-- The `DatediffAtThresholds.__init__` (total: it performs no validation). -/
def DatediffAtThresholds.init (col_name : ColExpr) (date_metrics : List String)
    (date_thresholds : List ℚ) (cast_strings_to_dates : Bool)
    (date_format : Option String) (term_frequency_adjustments : Bool)
    (invalid_dates_as_null : Bool) : DatediffAtThresholds :=
  { col_expression := col_name
    date_metrics := date_metrics
    date_thresholds := date_thresholds
    cast_strings_to_dates := cast_strings_to_dates
    date_format := date_format
    term_frequency_adjustments := term_frequency_adjustments
    invalid_dates_as_null := invalid_dates_as_null }

/-- Default of `cast_strings_to_dates` in `DatediffAtThresholds.__init__`. -/
def DatediffAtThresholds.cast_strings_to_dates_default : Bool := false

/-- Default of `date_format` in `DatediffAtThresholds.__init__`. -/
def DatediffAtThresholds.date_format_default : Option String := none

/-- Default of `term_frequency_adjustments` in
`DatediffAtThresholds.__init__`. -/
def DatediffAtThresholds.term_frequency_adjustments_default : Bool := false

/-- Default of `invalid_dates_as_null` in `DatediffAtThresholds.__init__`. -/
def DatediffAtThresholds.invalid_dates_as_null_default : Bool := true

/-- The `DatediffAtThresholds(col, date_metrics=ms, date_thresholds=ts)` with
every optional argument left at its default. -/
def DatediffAtThresholds.init_defaults (col_name : ColExpr)
    (date_metrics : List String) (date_thresholds : List ℚ) :
    DatediffAtThresholds :=
  DatediffAtThresholds.init col_name date_metrics date_thresholds
    DatediffAtThresholds.cast_strings_to_dates_default
    DatediffAtThresholds.date_format_default
    DatediffAtThresholds.term_frequency_adjustments_default
    DatediffAtThresholds.invalid_dates_as_null_default

/-- The `DatediffAtThresholds.create_comparison_levels`: the `zip` of the
threshold and metric lists truncates to the shorter list. -/
def DatediffAtThresholds.create_comparison_levels
    (self : DatediffAtThresholds) : List ComparisonLevelCreator :=
  let col := self.col_expression
  let null_col :=
    if self.invalid_dates_as_null then col.try_parse_date self.date_format
    else col
  let date_diff_col :=
    if self.cast_strings_to_dates then col.try_parse_date self.date_format
    else col
  [ComparisonLevelCreator.NullLevel null_col none none,
   ComparisonLevelCreator.ExactMatchLevel self.col_expression
     self.term_frequency_adjustments]
  ++ (self.date_thresholds.zip self.date_metrics).map
      (fun p => ComparisonLevelCreator.DatediffLevel date_diff_col p.1 p.2)
  ++ [ComparisonLevelCreator.ElseLevel]

end Splink

namespace Splink

/-! ### `comparison_template_library.py` -/

/-- The `DateComparison` attributes.  `fuzzy_level` and `fuzzy_metric` are only
set by `__init__` when `fuzzy_thresholds` is truthy, hence `Option`:
`none` means the attribute was never set. -/
structure DateComparison where
  col_expression : ColExpr
  fuzzy_thresholds : List ℚ
  date_thresholds : List ℚ
  date_metrics : List String
  date_format : Option String
  invalid_dates_as_null : Bool
  separate_1st_january : Bool
  exact_match : Bool
  fuzzy_level : Option FuzzyLevelKind
  fuzzy_metric : Option String
  deriving DecidableEq, Repr

/-- The `DateComparison.__init__`: raises `ValueError` for an unknown
`fuzzy_metric`, but only when `fuzzy_thresholds` is truthy (non-empty). -/
def DateComparison.init (col_name : ColExpr) (date_format : Option String)
    (invalid_dates_as_null : Bool) (include_exact_match_level : Bool)
    (separate_1st_january : Bool) (fuzzy_metric : String)
    (fuzzy_thresholds : List ℚ) (datediff_thresholds : List ℚ)
    (datediff_metrics : List String) : Except PyError DateComparison :=
  if fuzzy_thresholds.isEmpty then
    Except.ok
      { col_expression := col_name
        fuzzy_thresholds := fuzzy_thresholds
        date_thresholds := datediff_thresholds
        date_metrics := datediff_metrics
        date_format := date_format
        invalid_dates_as_null := invalid_dates_as_null
        separate_1st_january := separate_1st_january
        exact_match := include_exact_match_level
        fuzzy_level := none
        fuzzy_metric := none }
  else
    match fuzzyLevelsDict fuzzy_metric with
    | none =>
        Except.error (PyError.valueError (invalidFuzzyMetricMessage fuzzy_metric))
    | some k =>
        Except.ok
          { col_expression := col_name
            fuzzy_thresholds := fuzzy_thresholds
            date_thresholds := datediff_thresholds
            date_metrics := datediff_metrics
            date_format := date_format
            invalid_dates_as_null := invalid_dates_as_null
            separate_1st_january := separate_1st_january
            exact_match := include_exact_match_level
            fuzzy_level := some k
            fuzzy_metric := some fuzzy_metric }

/-- Default of `date_format` in `DateComparison.__init__`. -/
def DateComparison.date_format_default : Option String := none

/-- Default of `invalid_dates_as_null` in `DateComparison.__init__`. -/
def DateComparison.invalid_dates_as_null_default : Bool := false

/-- Default of `include_exact_match_level` in `DateComparison.__init__`. -/
def DateComparison.include_exact_match_level_default : Bool := true

/-- Default of `separate_1st_january` in `DateComparison.__init__`. -/
def DateComparison.separate_1st_january_default : Bool := false

/-- Default of `fuzzy_metric` in `DateComparison.__init__`. -/
def DateComparison.fuzzy_metric_default : String := "damerau_levenshtein"

/-- Default of `fuzzy_thresholds` in `DateComparison.__init__`. -/
def DateComparison.fuzzy_thresholds_default : List ℚ := [1]

/-- Default of `datediff_thresholds` in `DateComparison.__init__`. -/
def DateComparison.datediff_thresholds_default : List ℚ := [1, 1, 10]

/-- Default of `datediff_metrics` in `DateComparison.__init__`. -/
def DateComparison.datediff_metrics_default : List String :=
  ["month", "year", "year"]

/-- The `DateComparison(col)` with every optional argument at its default. -/
def DateComparison.init_defaults (col_name : ColExpr) :
    Except PyError DateComparison :=
  DateComparison.init col_name DateComparison.date_format_default
    DateComparison.invalid_dates_as_null_default
    DateComparison.include_exact_match_level_default
    DateComparison.separate_1st_january_default
    DateComparison.fuzzy_metric_default
    DateComparison.fuzzy_thresholds_default
    DateComparison.datediff_thresholds_default
    DateComparison.datediff_metrics_default

/-- The `cll.And(cll.CustomLevel(...), cll.ExactMatchLevel(...))` level for
1st-of-January dates in `DateComparison.create_comparison_levels`. -/
def DateComparison.janFirstLevel (col : ColExpr) : ComparisonLevelCreator :=
  let nl := col.name_l
  ComparisonLevelCreator.And
    (ComparisonLevelCreator.CustomLevel
      ("SUBSTR(" ++ nl ++ ", 6, 5) = \x2701-01\x27")
      (some "Match 1st Jan."))
    (ComparisonLevelCreator.ExactMatchLevel col false)

/-- The `DateComparison.create_comparison_levels`: reading `self.fuzzy_level`
when it was never set raises `AttributeError` (only reachable on instances
not produced by `__init__`). -/
def DateComparison.create_comparison_levels (self : DateComparison) :
    Except PyError (List ComparisonLevelCreator) := do
  let col := self.col_expression
  let head :=
    [ComparisonLevelCreator.NullLevel col self.date_format
        (some self.invalid_dates_as_null)]
    ++ (if self.separate_1st_january then [DateComparison.janFirstLevel col]
        else [])
    ++ (if self.exact_match then
          [ComparisonLevelCreator.ExactMatchLevel col false]
        else [])
  let fuzzyPart ←
    if self.fuzzy_thresholds.isEmpty then pure []
    else
      match self.fuzzy_level with
      | none =>
          Except.error (PyError.attributeError
            "\x27DateComparison\x27 object has no attribute \x27fuzzy_level\x27")
      | some k => pure (self.fuzzy_thresholds.map (k.apply col))
  let datePart :=
    if self.date_thresholds.isEmpty then []
    else
      (self.date_thresholds.zip self.date_metrics).map
        (fun p => ComparisonLevelCreator.DatediffLevel col p.1 p.2)
  Except.ok (head ++ fuzzyPart ++ datePart ++ [ComparisonLevelCreator.ElseLevel])

/-- The `m.title()` of a date metric in `DateComparison.create_description`
(the metrics are single words, so `title` capitalizes the first letter). -/
def pyTitle (s : String) : String := s.capitalize

/-- The date-difference clause of `DateComparison.create_description`. -/
def datediffThresholdsClause (date_thresholds : List ℚ)
    (date_metrics : List String) : String :=
  let pairs := (date_thresholds.zip date_metrics).map
    (fun p => pyTitle p.2 ++ "(s): " ++ toString p.1)
  "dates within the following threshold" ++ pluralS date_thresholds ++ " "
    ++ String.intercalate ", " pairs ++ " vs. "

/-- The `DateComparison.create_description`: the fuzzy clause is ASSIGNED over
the accumulated string (Python `=`, not `+=`), discarding the exact-match
segment; reading `self.fuzzy_metric` when never set raises
`AttributeError`. -/
def DateComparison.create_description (self : DateComparison) :
    Except PyError String := do
  let d0 :=
    if self.exact_match then
      "Exact match "
        ++ (if self.separate_1st_january then "(with separate 1st Jan) "
            else "")
        ++ "vs. "
    else ""
  let d1 ←
    if self.fuzzy_thresholds.isEmpty then pure d0
    else
      match self.fuzzy_metric with
      | none =>
          Except.error (PyError.attributeError
            "\x27DateComparison\x27 object has no attribute \x27fuzzy_metric\x27")
      | some fm =>
          pure (fm ++ " at threshold" ++ pluralS self.fuzzy_thresholds ++ " "
            ++ commaSeparated self.fuzzy_thresholds ++ " vs. ")
  let d2 :=
    if self.date_thresholds.isEmpty then d1
    else d1 ++ datediffThresholdsClause self.date_thresholds self.date_metrics
  Except.ok (d2 ++ "anything else")

end Splink

namespace Splink

/-- The `_VALID_POSTCODE_REGEX`. -/
def VALID_POSTCODE_REGEX : String :=
  "^[A-Za-z]\x7b1,2\x7d[0-9][A-Za-z0-9]? [0-9][A-Za-z]\x7b2\x7d$"

/-- The `PostcodeComparison.SECTOR_REGEX`. -/
def SECTOR_REGEX : String := "^[A-Za-z]\x7b1,2\x7d[0-9][A-Za-z0-9]? [0-9]"

/-- The `PostcodeComparison.DISTRICT_REGEX`. -/
def DISTRICT_REGEX : String := "^[A-Za-z]\x7b1,2\x7d[0-9][A-Za-z0-9]?"

/-- The `PostcodeComparison.AREA_REGEX`. -/
def AREA_REGEX : String := "^[A-Za-z]\x7b1,2\x7d"

/-- The `PostcodeComparison` attributes.  `km_thresholds` (and the latitude and
longitude entries of `self.cols`) are only set by `__init__` when the
`km_thresholds` argument is truthy, hence `Option`: `none` means the
attribute was never set, so reading it raises `AttributeError`. -/
structure PostcodeComparison where
  valid_postcode_regex : Option String
  full_match : Bool
  sector_match : Bool
  district_match : Bool
  area_match : Bool
  postcode_col : ColExpr
  km_thresholds : Option (List ℚ)
  lat_col : Option ColExpr
  long_col : Option ColExpr
  deriving DecidableEq, Repr

/-- The `PostcodeComparison.__init__`: stores the validity regex only when
`invalid_postcodes_as_null` is true, and sets `self.km_thresholds` (and the
latitude/longitude columns) only inside `if km_thresholds:`. -/
def PostcodeComparison.init (col_name : ColExpr)
    (invalid_postcodes_as_null : Bool) (valid_postcode_regex : String)
    (include_full_match_level : Bool) (include_sector_match_level : Bool)
    (include_district_match_level : Bool) (include_area_match_level : Bool)
    (lat_col : Option ColExpr) (long_col : Option ColExpr)
    (km_thresholds : List ℚ) : PostcodeComparison :=
  { valid_postcode_regex :=
      if invalid_postcodes_as_null then some valid_postcode_regex else none
    full_match := include_full_match_level
    sector_match := include_sector_match_level
    district_match := include_district_match_level
    area_match := include_area_match_level
    postcode_col := col_name
    km_thresholds := if km_thresholds.isEmpty then none else some km_thresholds
    lat_col := if km_thresholds.isEmpty then none else lat_col
    long_col := if km_thresholds.isEmpty then none else long_col }

/-- Default of `invalid_postcodes_as_null` in `PostcodeComparison.__init__`. -/
def PostcodeComparison.invalid_postcodes_as_null_default : Bool := false

/-- Default of `km_thresholds` in `PostcodeComparison.__init__`. -/
def PostcodeComparison.km_thresholds_default : List ℚ := []

/-- The `PostcodeComparison(col)` with every optional argument at its default
(`lat_col=None`, `long_col=None`, `km_thresholds=[]`). -/
def PostcodeComparison.init_defaults (col_name : ColExpr) :
    PostcodeComparison :=
  PostcodeComparison.init col_name
    PostcodeComparison.invalid_postcodes_as_null_default VALID_POSTCODE_REGEX
    true true true true none none PostcodeComparison.km_thresholds_default

/-- The `AttributeError` message for reading the never-set
`self.km_thresholds`. -/
def kmThresholdsAttributeErrorMessage : String :=
  "\x27PostcodeComparison\x27 object has no attribute \x27km_thresholds\x27"

/-- The `PostcodeComparison.create_comparison_levels`: reaches
`if self.km_thresholds:` after building the exact-match levels, so an unset
`km_thresholds` aborts the whole call with `AttributeError`. -/
def PostcodeComparison.create_comparison_levels (self : PostcodeComparison) :
    Except PyError (List ComparisonLevelCreator) := do
  let full_col_expression := self.postcode_col
  let sector_col_expression := full_col_expression.regex_extract SECTOR_REGEX
  let district_col_expression :=
    full_col_expression.regex_extract DISTRICT_REGEX
  let area_col_expression := full_col_expression.regex_extract AREA_REGEX
  let head :=
    [ComparisonLevelCreator.NullLevel full_col_expression
        self.valid_postcode_regex none]
    ++ (if self.full_match then
          [ComparisonLevelCreator.ExactMatchLevel full_col_expression false]
        else [])
    ++ (if self.sector_match then
          [ComparisonLevelCreator.ExactMatchLevel sector_col_expression false]
        else [])
    ++ (if self.district_match then
          [ComparisonLevelCreator.ExactMatchLevel district_col_expression false]
        else [])
    ++ (if self.area_match then
          [ComparisonLevelCreator.ExactMatchLevel area_col_expression false]
        else [])
  let kmPart ←
    match self.km_thresholds with
    | none =>
        Except.error (PyError.attributeError kmThresholdsAttributeErrorMessage)
    | some kms =>
        if kms.isEmpty then pure []
        else
          match self.lat_col, self.long_col with
          | some lat, some long =>
              pure (kms.map
                (fun km =>
                  ComparisonLevelCreator.DistanceInKMLevel lat long km))
          | _, _ =>
              Except.error (PyError.attributeError
                "latitude/longitude column expressions are not set")
  Except.ok (head ++ kmPart ++ [ComparisonLevelCreator.ElseLevel])

/-- The `PostcodeComparison.create_description`: the km clause is ASSIGNED over
the accumulated string (Python `=`, not `+=`); an unset `km_thresholds`
raises `AttributeError`. -/
def PostcodeComparison.create_description (self : PostcodeComparison) :
    Except PyError String := do
  let d0 :=
    (if self.full_match then "Exact match vs. " else "")
    ++ (if self.sector_match then "Exact sector match vs. " else "")
    ++ (if self.district_match then "Exact district match vs. " else "")
    ++ (if self.area_match then "Exact area match vs. " else "")
  let d1 ←
    match self.km_thresholds with
    | none =>
        Except.error (PyError.attributeError kmThresholdsAttributeErrorMessage)
    | some kms =>
        if kms.isEmpty then pure d0
        else
          pure ("km distance within threshold" ++ pluralS kms ++ " "
            ++ commaSeparated kms ++ " vs. ")
  Except.ok (d1 ++ "anything else")

/-- The `_DEFAULT_EMAIL_REGEX`. -/
def DEFAULT_EMAIL_REGEX : String :=
  "^[a-zA-Z0-9._%+-]+@[a-zA-Z0-9.-]+[.][a-zA-Z]\x7b2,\x7d$"

/-- The `EmailComparison.USERNAME_REGEX`. -/
def USERNAME_REGEX : String := "^[^@]+"

/-- The `EmailComparison.DOMAIN_REGEX`. -/
def DOMAIN_REGEX : String := "@([^@]+)$"

/-- The `EmailComparison` attributes.  `fuzzy_level` and `fuzzy_metric` are
only set by `__init__` when `fuzzy_thresholds` is truthy. -/
structure EmailComparison where
  col_expression : ColExpr
  fuzzy_thresholds : List ℚ
  valid_email_regex : Option String
  exact_match : Bool
  username_match : Bool
  username_fuzzy : Bool
  domain_match : Bool
  fuzzy_level : Option FuzzyLevelKind
  fuzzy_metric : Option String
  deriving DecidableEq, Repr

/-- The `EmailComparison.__init__`: stores the validity regex only when
`invalid_emails_as_null` is true; raises `ValueError` for an unknown
`fuzzy_metric`, but only when `fuzzy_thresholds` is truthy. -/
def EmailComparison.init (col_name : ColExpr) (invalid_emails_as_null : Bool)
    (valid_email_regex : String) (include_exact_match_level : Bool)
    (include_username_match_level : Bool)
    (include_username_fuzzy_level : Bool) (include_domain_match_level : Bool)
    (fuzzy_metric : String) (fuzzy_thresholds : List ℚ) :
    Except PyError EmailComparison :=
  let base : EmailComparison :=
    { col_expression := col_name
      fuzzy_thresholds := fuzzy_thresholds
      valid_email_regex :=
        if invalid_emails_as_null then some valid_email_regex else none
      exact_match := include_exact_match_level
      username_match := include_username_match_level
      username_fuzzy := include_username_fuzzy_level
      domain_match := include_domain_match_level
      fuzzy_level := none
      fuzzy_metric := none }
  if fuzzy_thresholds.isEmpty then Except.ok base
  else
    match fuzzyLevelsDict fuzzy_metric with
    | none =>
        Except.error (PyError.valueError (invalidFuzzyMetricMessage fuzzy_metric))
    | some k =>
        Except.ok
          { base with fuzzy_level := some k, fuzzy_metric := some fuzzy_metric }

/-- Default of `invalid_emails_as_null` in `EmailComparison.__init__`. -/
def EmailComparison.invalid_emails_as_null_default : Bool := false

/-- Default of `fuzzy_metric` in `EmailComparison.__init__`. -/
def EmailComparison.fuzzy_metric_default : String := "jaro_winkler"

/-- Default of `fuzzy_thresholds` in `EmailComparison.__init__`. -/
def EmailComparison.fuzzy_thresholds_default : List ℚ := [0.88]

/-- The `EmailComparison(col)` with every optional argument at its default. -/
def EmailComparison.init_defaults (col_name : ColExpr) :
    Except PyError EmailComparison :=
  EmailComparison.init col_name EmailComparison.invalid_emails_as_null_default
    DEFAULT_EMAIL_REGEX true true true false
    EmailComparison.fuzzy_metric_default
    EmailComparison.fuzzy_thresholds_default

/-- The `EmailComparison.create_comparison_levels`: note that the domain
exact-match level (when enabled) is appended AFTER the fuzzy levels. -/
def EmailComparison.create_comparison_levels (self : EmailComparison) :
    Except PyError (List ComparisonLevelCreator) := do
  let full_col_expression := self.col_expression
  let username_col_expression :=
    full_col_expression.regex_extract USERNAME_REGEX
  let domain_col_expression := full_col_expression.regex_extract DOMAIN_REGEX
  let head :=
    [ComparisonLevelCreator.NullLevel full_col_expression
        self.valid_email_regex none]
    ++ (if self.exact_match then
          [ComparisonLevelCreator.ExactMatchLevel full_col_expression false]
        else [])
    ++ (if self.username_match then
          [ComparisonLevelCreator.ExactMatchLevel username_col_expression false]
        else [])
  let fuzzyPart ←
    if self.fuzzy_thresholds.isEmpty then pure []
    else
      match self.fuzzy_level with
      | none =>
          Except.error (PyError.attributeError
            "\x27EmailComparison\x27 object has no attribute \x27fuzzy_level\x27")
      | some k =>
          pure (self.fuzzy_thresholds.map (k.apply full_col_expression)
            ++ (if self.username_fuzzy then
                  self.fuzzy_thresholds.map (k.apply username_col_expression)
                else []))
  let tail :=
    if self.domain_match then
      [ComparisonLevelCreator.ExactMatchLevel domain_col_expression false]
    else []
  Except.ok (head ++ fuzzyPart ++ tail ++ [ComparisonLevelCreator.ElseLevel])

/-- The `EmailComparison.create_description`: the fuzzy clause (and, when
`username_fuzzy` is set, the username-fuzzy clause) is ASSIGNED over the
accumulated string (Python `=`, not `+=`). -/
def EmailComparison.create_description (self : EmailComparison) :
    Except PyError String := do
  let d0 :=
    (if self.exact_match then "Exact match vs. " else "")
    ++ (if self.username_match then
          "Exact username match different domain vs. "
        else "")
  let d1 ←
    if self.fuzzy_thresholds.isEmpty then pure d0
    else
      match self.fuzzy_metric with
      | none =>
          Except.error (PyError.attributeError
            "\x27EmailComparison\x27 object has no attribute \x27fuzzy_metric\x27")
      | some fm =>
          if self.username_fuzzy then
            pure (fm ++ " on username at threshold"
              ++ pluralS self.fuzzy_thresholds ++ " "
              ++ commaSeparated self.fuzzy_thresholds ++ " vs. ")
          else
            pure (fm ++ " at threshold" ++ pluralS self.fuzzy_thresholds ++ " "
              ++ commaSeparated self.fuzzy_thresholds ++ " vs. ")
  let d2 := d1 ++ (if self.domain_match then "Domain-only match vs. " else "")
  Except.ok (d2 ++ "anything else")

end Splink

namespace Splink

/-! ### `blocking_rule_creator_utils.py` -/

/-- A structured `BlockingRuleCreator` object: a `CustomRule` built from a
raw SQL string, a `CustomRule` built by keyword expansion of a mapping of
rule parameters, or some other structured rule object (opaque here). -/
inductive BlockingRuleCreator where
  | customRuleOfString (sql : String)
  | customRuleOfDict (params : List (String × String))
  | structuredRule (tag : String)
  deriving DecidableEq, Repr

/-- A Python value passed to `to_blocking_rule_creator`: a dict of rule
parameters, a raw string, a structured rule object, or a value of any
other type (recorded with its `repr` and `type` strings). -/
inductive BlockingRuleInput where
  | dict (params : List (String × String))
  | str (sql : String)
  | creator (c : BlockingRuleCreator)
  | otherValue (valueRepr : String) (typeName : String)
  deriving DecidableEq, Repr

/-- A Python value returned by `to_blocking_rule_creator`: either a
`BlockingRuleCreator`, or — since the final `return blocking_rule_creator`
has no type check — whatever non-dict, non-string, non-creator value was
passed in, returned unchanged. -/
inductive BlockingRuleOutput where
  | creator (c : BlockingRuleCreator)
  | passthrough (valueRepr : String) (typeName : String)
  deriving DecidableEq, Repr

/-- The `to_blocking_rule_creator`: a dict becomes `CustomRule(**d)`, a string
becomes `CustomRule(s)`, and EVERY other value — structured rule object or
not — is returned unchanged by the final `return blocking_rule_creator`. -/
def to_blocking_rule_creator (blocking_rule_creator : BlockingRuleInput) :
    BlockingRuleOutput :=
  match blocking_rule_creator with
  | BlockingRuleInput.dict params =>
      BlockingRuleOutput.creator (BlockingRuleCreator.customRuleOfDict params)
  | BlockingRuleInput.str sql =>
      BlockingRuleOutput.creator (BlockingRuleCreator.customRuleOfString sql)
  | BlockingRuleInput.creator c => BlockingRuleOutput.creator c
  | BlockingRuleInput.otherValue v t => BlockingRuleOutput.passthrough v t

/-! ### All comparison creators of the library, as one type -/

/-- The comparison creators defined across `comparison_library.py` and
`comparison_template_library.py`. -/
inductive LibraryComparison where
  | custom (c : CustomComparison)
  | exactMatch (c : ExactMatch)
  | levenshteinAtThresholds (c : LevenshteinAtThresholds)
  | datediffAtThresholds (c : DatediffAtThresholds)
  | dateComparison (c : DateComparison)
  | postcodeComparison (c : PostcodeComparison)
  | emailComparison (c : EmailComparison)
  deriving DecidableEq, Repr

/-- The `create_comparison_levels` dispatched over every creator of the
library (creators that cannot raise are wrapped in `Except.ok`). -/
def LibraryComparison.create_comparison_levels (lc : LibraryComparison) :
    Except PyError (List ComparisonLevelCreator) :=
  match lc with
  | LibraryComparison.custom c => c.create_comparison_levels
  | LibraryComparison.exactMatch c => Except.ok c.create_comparison_levels
  | LibraryComparison.levenshteinAtThresholds c =>
      Except.ok c.create_comparison_levels
  | LibraryComparison.datediffAtThresholds c =>
      Except.ok c.create_comparison_levels
  | LibraryComparison.dateComparison c => c.create_comparison_levels
  | LibraryComparison.postcodeComparison c => c.create_comparison_levels
  | LibraryComparison.emailComparison c => c.create_comparison_levels

/-- Is this creator a `CustomComparison` (levels supplied by the caller)? -/
def LibraryComparison.isCustom : LibraryComparison → Bool
  | LibraryComparison.custom _ => true
  | _ => false

end Splink

namespace Splink

/-! ### Predicates used by the verification -/

/-- Decides that `exact` occurs in `ls` and that, scanning left to right,
it occurs before any fuzzy level: the scan succeeds on reaching `exact`
and fails on reaching a fuzzy level (or the end) first.  The lemma
`exactBeforeAllFuzzy_spec` gives the index semantics. -/
def exactBeforeAllFuzzy (exact : ComparisonLevelCreator) :
    List ComparisonLevelCreator → Bool
  | [] => false
  | x :: rest =>
      if x = exact then true
      else if x.isFuzzy then false
      else exactBeforeAllFuzzy exact rest

/-- A level is a `DatediffLevel`. -/
def ComparisonLevelCreator.isDatediff : ComparisonLevelCreator → Bool
  | ComparisonLevelCreator.DatediffLevel _ _ _ => true
  | _ => false

/-- The first entry of a `CustomComparison.comparison_levels` list that is
neither a `ComparisonLevelCreator` nor a dict, with its `repr` and `type`
strings; `none` when every entry is acceptable.  This is the entry at
which the list comprehension of `create_comparison_levels` raises. -/
def firstBadEntry : List ComparisonLevelInput → Option (String × String)
  | [] => none
  | ComparisonLevelInput.otherValue v t :: _ => some (v, t)
  | _ :: rest => firstBadEntry rest

/-- Tests that `pre` is a prefix of `s`, decided on the underlying character data. -/
def strStartsWith (pre s : String) : Bool :=
  s.data.take pre.data.length == pre.data

/-! ### Helper lemmas -/

/-- Evaluation of `pure` in the `Except PyError` monad is `Except.ok`. -/
theorem exceptPure_eq_ok {α : Type} (a : α) :
    (pure a : Except PyError α) = Except.ok a := rfl

/-- Binding an `Except.error` short-circuits. -/
theorem exceptBind_error {α β : Type} (e : PyError)
    (f : α → Except PyError β) :
    (Except.error e >>= f : Except PyError β) = Except.error e := rfl

/-- Binding an `Except.ok` applies the continuation. -/
theorem exceptBind_ok {α β : Type} (a : α) (f : α → Except PyError β) :
    (Except.ok a >>= f : Except PyError β) = f a := rfl

/-- Appending a list that ends with `ElseLevel` preserves that fact. -/
theorem getLast?_else_append (l m : List ComparisonLevelCreator)
    (h : m.getLast? = some ComparisonLevelCreator.ElseLevel) :
    (l ++ m).getLast? = some ComparisonLevelCreator.ElseLevel := by
  rw [List.getLast?_append_of_ne_nil l (by rintro rfl; simp at h)]
  exact h

/-- Prepending an element to a list that ends with `ElseLevel` preserves
that fact. -/
theorem getLast?_else_cons (x : ComparisonLevelCreator)
    (m : List ComparisonLevelCreator)
    (h : m.getLast? = some ComparisonLevelCreator.ElseLevel) :
    (x :: m).getLast? = some ComparisonLevelCreator.ElseLevel :=
  getLast?_else_append [x] m h

/-- Any successful result of `DateComparison.create_comparison_levels` is
non-empty and ends with `ElseLevel`. -/
theorem dateCreateLevelsShape (self : DateComparison)
    {ls : List ComparisonLevelCreator}
    (h : self.create_comparison_levels = Except.ok ls) :
    ls ≠ [] ∧ ls.getLast? = some ComparisonLevelCreator.ElseLevel := by
  unfold DateComparison.create_comparison_levels at h
  cases h1 : self.fuzzy_thresholds.isEmpty with
  | true =>
      simp only [h1, if_true, exceptPure_eq_ok, exceptBind_ok,
        Except.ok.injEq] at h
      subst h
      refine ⟨by simp, ?_⟩
      repeat first
        | exact rfl
        | apply getLast?_else_append
        | apply getLast?_else_cons
  | false =>
      cases hfl : self.fuzzy_level with
      | none =>
          simp only [h1, hfl, Bool.false_eq_true, if_false,
            exceptBind_error] at h
          exact Except.noConfusion h
      | some k =>
          simp only [h1, hfl, Bool.false_eq_true, if_false, exceptPure_eq_ok,
            exceptBind_ok, Except.ok.injEq] at h
          subst h
          refine ⟨by simp, ?_⟩
          repeat first
            | exact rfl
            | apply getLast?_else_append
            | apply getLast?_else_cons

/-- Any successful result of `EmailComparison.create_comparison_levels` is
non-empty and ends with `ElseLevel`. -/
theorem emailCreateLevelsShape (self : EmailComparison)
    {ls : List ComparisonLevelCreator}
    (h : self.create_comparison_levels = Except.ok ls) :
    ls ≠ [] ∧ ls.getLast? = some ComparisonLevelCreator.ElseLevel := by
  unfold EmailComparison.create_comparison_levels at h
  cases h1 : self.fuzzy_thresholds.isEmpty with
  | true =>
      simp only [h1, if_true, exceptPure_eq_ok, exceptBind_ok,
        Except.ok.injEq] at h
      subst h
      refine ⟨by simp, ?_⟩
      repeat first
        | exact rfl
        | apply getLast?_else_append
        | apply getLast?_else_cons
  | false =>
      cases hfl : self.fuzzy_level with
      | none =>
          simp only [h1, hfl, Bool.false_eq_true, if_false,
            exceptBind_error] at h
          exact Except.noConfusion h
      | some k =>
          simp only [h1, hfl, Bool.false_eq_true, if_false, exceptPure_eq_ok,
            exceptBind_ok, Except.ok.injEq] at h
          subst h
          refine ⟨by simp, ?_⟩
          repeat first
            | exact rfl
            | apply getLast?_else_append
            | apply getLast?_else_cons

/-- Any successful result of `PostcodeComparison.create_comparison_levels`
is non-empty and ends with `ElseLevel`. -/
theorem postcodeCreateLevelsShape (self : PostcodeComparison)
    {ls : List ComparisonLevelCreator}
    (h : self.create_comparison_levels = Except.ok ls) :
    ls ≠ [] ∧ ls.getLast? = some ComparisonLevelCreator.ElseLevel := by
  unfold PostcodeComparison.create_comparison_levels at h
  cases hkm : self.km_thresholds with
  | none =>
      simp only [hkm, exceptBind_error] at h
      exact Except.noConfusion h
  | some kms =>
      cases h1 : kms.isEmpty with
      | true =>
          simp only [hkm, h1, if_true, exceptPure_eq_ok, exceptBind_ok,
            Except.ok.injEq] at h
          subst h
          refine ⟨by simp, ?_⟩
          repeat first
            | exact rfl
            | apply getLast?_else_append
            | apply getLast?_else_cons
      | false =>
          cases hlat : self.lat_col with
          | none =>
              simp only [hkm, h1, hlat, Bool.false_eq_true, if_false,
                exceptBind_error] at h
              exact Except.noConfusion h
          | some lat =>
              cases hlong : self.long_col with
              | none =>
                  simp only [hkm, h1, hlat, hlong, Bool.false_eq_true,
                    if_false, exceptBind_error] at h
                  exact Except.noConfusion h
              | some long =>
                  simp only [hkm, h1, hlat, hlong, Bool.false_eq_true,
                    if_false, exceptPure_eq_ok, exceptBind_ok,
                    Except.ok.injEq] at h
                  subst h
                  refine ⟨by simp, ?_⟩
                  repeat first
                    | exact rfl
                    | apply getLast?_else_append
                    | apply getLast?_else_cons

end Splink

namespace Splink

/-! ### Claim C1 -/

/-- C1 counterexample: a `CustomComparison` whose caller-supplied level
list is `[ExactMatchLevel]` makes `create_comparison_levels()` return that
one-element list unchanged, whose last element is not an `ElseLevel` —
refuting the claim that EVERY library comparison creator, including
`CustomComparison`, returns a list terminated by an unconditional
catch-all. -/
theorem c1_custom_comparison_breaks_else_invariant :
    LibraryComparison.create_comparison_levels
        (LibraryComparison.custom
          { output_column_name := "x"
            comparison_levels :=
              [ComparisonLevelInput.creator
                (ComparisonLevelCreator.ExactMatchLevel (ColExpr.raw "c")
                  false)]
            description := none })
      = Except.ok
          [ComparisonLevelCreator.ExactMatchLevel (ColExpr.raw "c") false] ∧
    ([ComparisonLevelCreator.ExactMatchLevel (ColExpr.raw "c")
        false]).getLast? ≠ some ComparisonLevelCreator.ElseLevel :=
  ⟨rfl, by decide⟩

/-- C1 (amended): for every comparison creator of the library OTHER than
`CustomComparison` — whose level list is whatever the caller supplied —
any list returned by `create_comparison_levels()` is non-empty and its
last element is the unconditional `ElseLevel`. -/
theorem c1_non_custom_levels_end_with_else
    (lc : LibraryComparison) (hnc : lc.isCustom = false)
    {ls : List ComparisonLevelCreator}
    (h : lc.create_comparison_levels = Except.ok ls) :
    ls ≠ [] ∧ ls.getLast? = some ComparisonLevelCreator.ElseLevel := by
  cases lc with
  | custom c => simp [LibraryComparison.isCustom] at hnc
  | exactMatch c =>
      simp only [LibraryComparison.create_comparison_levels,
        Except.ok.injEq] at h
      subst h
      exact ⟨by simp [ExactMatch.create_comparison_levels], rfl⟩
  | levenshteinAtThresholds c =>
      simp only [LibraryComparison.create_comparison_levels,
        Except.ok.injEq] at h
      subst h
      refine ⟨by simp [LevenshteinAtThresholds.create_comparison_levels], ?_⟩
      unfold LevenshteinAtThresholds.create_comparison_levels
      repeat first
        | exact rfl
        | apply getLast?_else_append
        | apply getLast?_else_cons
  | datediffAtThresholds c =>
      simp only [LibraryComparison.create_comparison_levels,
        Except.ok.injEq] at h
      subst h
      refine ⟨by simp [DatediffAtThresholds.create_comparison_levels], ?_⟩
      unfold DatediffAtThresholds.create_comparison_levels
      repeat first
        | exact rfl
        | apply getLast?_else_append
        | apply getLast?_else_cons
  | dateComparison c => exact dateCreateLevelsShape c h
  | postcodeComparison c => exact postcodeCreateLevelsShape c h
  | emailComparison c => exact emailCreateLevelsShape c h

/-- Witness for C1 (amended): the theorem applied to a concrete
`ExactMatch("c")` creator. -/
theorem c1_non_custom_levels_end_with_else_witness :
    [ComparisonLevelCreator.NullLevel (ColExpr.raw "c") none none,
     ComparisonLevelCreator.ExactMatchLevel (ColExpr.raw "c") false,
     ComparisonLevelCreator.ElseLevel] ≠
      ([] : List ComparisonLevelCreator) ∧
    ([ComparisonLevelCreator.NullLevel (ColExpr.raw "c") none none,
      ComparisonLevelCreator.ExactMatchLevel (ColExpr.raw "c") false,
      ComparisonLevelCreator.ElseLevel]).getLast? =
      some ComparisonLevelCreator.ElseLevel :=
  c1_non_custom_levels_end_with_else
    (LibraryComparison.exactMatch
      { col_expression := ColExpr.raw "c"
        term_frequency_adjustments := false })
    rfl rfl

end Splink

namespace Splink

/-! ### Claim C2 -/

/-- If the scan succeeds and `exact` is itself not fuzzy, then `exact`
occurs at an index strictly smaller than the index of every fuzzy level. -/
theorem exactBeforeAllFuzzy_spec {exact : ComparisonLevelCreator}
    (hx : exact.isFuzzy = false) :
    ∀ {ls : List ComparisonLevelCreator},
      exactBeforeAllFuzzy exact ls = true →
      ∃ i, ∃ hi : i < ls.length, ls.get ⟨i, hi⟩ = exact ∧
        ∀ j, ∀ hj : j < ls.length,
          ((ls.get ⟨j, hj⟩).isFuzzy = true) → i < j := by
  intro ls
  induction ls with
  | nil => intro h; simp [exactBeforeAllFuzzy] at h
  | cons x rest ih =>
      intro h
      by_cases hxe : x = exact
      · refine ⟨0, by simp, by simpa using hxe, ?_⟩
        intro j hj hfz
        cases j with
        | zero =>
            simp only [List.get] at hfz
            rw [hxe, hx] at hfz
            exact Bool.noConfusion hfz
        | succ j' => exact Nat.succ_pos j'
      · by_cases hfx : x.isFuzzy
        · simp [exactBeforeAllFuzzy, hxe, hfx] at h
        · have h' : exactBeforeAllFuzzy exact rest = true := by
            simpa [exactBeforeAllFuzzy, hxe, hfx] using h
          obtain ⟨i, hi, hget, hall⟩ := ih h'
          refine ⟨i + 1, by simpa using Nat.succ_lt_succ hi, by simpa using hget, ?_⟩
          intro j hj hfz
          cases j with
          | zero =>
              simp only [List.get] at hfz
              rw [hfz] at hfx
              exact absurd rfl hfx
          | succ j' =>
              exact Nat.succ_lt_succ
                (hall j' (Nat.lt_of_succ_lt_succ hj) (by simpa using hfz))

/-- C2: whenever a creator emits both an exact-match level on its main
column and fuzzy levels — `LevenshteinAtThresholds` always, and
`DateComparison`/`EmailComparison` with `include_exact_match_level` —
the `ExactMatchLevel` on the full column appears strictly before every
fuzzy level of `create_comparison_levels()` (via `exactBeforeAllFuzzy`,
whose index meaning is `exactBeforeAllFuzzy_spec`). -/
theorem c2_exact_match_before_fuzzy :
    (∀ (c : LevenshteinAtThresholds),
        exactBeforeAllFuzzy
          (ComparisonLevelCreator.ExactMatchLevel c.col_expression false)
          c.create_comparison_levels = true) ∧
    (∀ (d : DateComparison) (ls : List ComparisonLevelCreator),
        d.exact_match = true →
        d.create_comparison_levels = Except.ok ls →
        exactBeforeAllFuzzy
          (ComparisonLevelCreator.ExactMatchLevel d.col_expression false)
          ls = true) ∧
    (∀ (e : EmailComparison) (ls : List ComparisonLevelCreator),
        e.exact_match = true →
        e.create_comparison_levels = Except.ok ls →
        exactBeforeAllFuzzy
          (ComparisonLevelCreator.ExactMatchLevel e.col_expression false)
          ls = true) := by
  refine ⟨?_, ?_, ?_⟩
  · intro c
    simp [LevenshteinAtThresholds.create_comparison_levels,
      exactBeforeAllFuzzy, ComparisonLevelCreator.isFuzzy]
  · intro d ls hex hok
    unfold DateComparison.create_comparison_levels at hok
    cases h1 : d.fuzzy_thresholds.isEmpty with
    | true =>
        simp only [h1, if_true, exceptPure_eq_ok, exceptBind_ok,
          Except.ok.injEq] at hok
        subst hok
        by_cases hsep : d.separate_1st_january <;>
          simp [hex, hsep, exactBeforeAllFuzzy, DateComparison.janFirstLevel,
            ComparisonLevelCreator.isFuzzy]
    | false =>
        cases hfl : d.fuzzy_level with
        | none =>
            simp only [h1, hfl, Bool.false_eq_true, if_false,
              exceptBind_error] at hok
            exact Except.noConfusion hok
        | some k =>
            simp only [h1, hfl, Bool.false_eq_true, if_false,
              exceptPure_eq_ok, exceptBind_ok, Except.ok.injEq] at hok
            subst hok
            by_cases hsep : d.separate_1st_january <;>
              simp [hex, hsep, exactBeforeAllFuzzy,
                DateComparison.janFirstLevel, ComparisonLevelCreator.isFuzzy]
  · intro e ls hex hok
    unfold EmailComparison.create_comparison_levels at hok
    cases h1 : e.fuzzy_thresholds.isEmpty with
    | true =>
        simp only [h1, if_true, exceptPure_eq_ok, exceptBind_ok,
          Except.ok.injEq] at hok
        subst hok
        simp [hex, exactBeforeAllFuzzy, ComparisonLevelCreator.isFuzzy]
    | false =>
        cases hfl : e.fuzzy_level with
        | none =>
            simp only [h1, hfl, Bool.false_eq_true, if_false,
              exceptBind_error] at hok
            exact Except.noConfusion hok
        | some k =>
            simp only [h1, hfl, Bool.false_eq_true, if_false,
              exceptPure_eq_ok, exceptBind_ok, Except.ok.injEq] at hok
            subst hok
            simp [hex, exactBeforeAllFuzzy, ComparisonLevelCreator.isFuzzy]

/-- Witness for C2: the `DateComparison` part of the theorem applied to a
concrete instance with the separate-1st-January, exact-match, fuzzy and
date-difference levels all present. -/
theorem c2_exact_match_before_fuzzy_witness :
    exactBeforeAllFuzzy
      (ComparisonLevelCreator.ExactMatchLevel (ColExpr.raw "dob") false)
      [ComparisonLevelCreator.NullLevel (ColExpr.raw "dob") none (some false),
       DateComparison.janFirstLevel (ColExpr.raw "dob"),
       ComparisonLevelCreator.ExactMatchLevel (ColExpr.raw "dob") false,
       ComparisonLevelCreator.DamerauLevenshteinLevel (ColExpr.raw "dob") 1,
       ComparisonLevelCreator.DatediffLevel (ColExpr.raw "dob") 1 "month",
       ComparisonLevelCreator.ElseLevel] = true :=
  c2_exact_match_before_fuzzy.2.1
    { col_expression := ColExpr.raw "dob"
      fuzzy_thresholds := [1]
      date_thresholds := [1]
      date_metrics := ["month"]
      date_format := none
      invalid_dates_as_null := false
      separate_1st_january := true
      exact_match := true
      fuzzy_level := some FuzzyLevelKind.damerau_levenshtein
      fuzzy_metric := some "damerau_levenshtein" }
    _ rfl rfl

end Splink

namespace Splink

/-! ### Claim C3 -/

/-- C3 counterexample: passing a value that is neither a dict, a string
nor a `BlockingRuleCreator` — here an `int` — makes
`to_blocking_rule_creator` return the value unchanged via its final
`return blocking_rule_creator`; no type error of any kind is raised, and
the result is not a rule object.  This refutes the claim that such inputs
are rejected with a type error naming the value and its type. -/
theorem c3_unknown_input_passes_through_unchanged :
    to_blocking_rule_creator (BlockingRuleInput.otherValue "42" "int")
      = BlockingRuleOutput.passthrough "42" "int" := rfl

/-- C3 (amended): `to_blocking_rule_creator` normalizes a dict to
`CustomRule(**d)` and a string to `CustomRule(s)`, and returns EVERY other
input — structured rule object or arbitrary value — unchanged; it contains
no type check and raises no error for unknown input types. -/
theorem c3_to_blocking_rule_creator_behaviour :
    (∀ params, to_blocking_rule_creator (BlockingRuleInput.dict params)
        = BlockingRuleOutput.creator
            (BlockingRuleCreator.customRuleOfDict params)) ∧
    (∀ s, to_blocking_rule_creator (BlockingRuleInput.str s)
        = BlockingRuleOutput.creator
            (BlockingRuleCreator.customRuleOfString s)) ∧
    (∀ c, to_blocking_rule_creator (BlockingRuleInput.creator c)
        = BlockingRuleOutput.creator c) ∧
    (∀ v t, to_blocking_rule_creator (BlockingRuleInput.otherValue v t)
        = BlockingRuleOutput.passthrough v t) :=
  ⟨fun _ => rfl, fun _ => rfl, fun _ => rfl, fun _ _ => rfl⟩

end Splink

namespace Splink

/-! ### Claim C4 -/

/-- A non-empty list is not `isEmpty`. -/
theorem isEmpty_false_of_ne_nil {α : Type} {l : List α} (h : l ≠ []) :
    l.isEmpty = false := by
  cases l with
  | nil => exact absurd rfl h
  | cons a as => rfl

/-- C4 counterexample: constructing a `DateComparison` with the invalid
fuzzy metric `"bogus"` but an EMPTY `fuzzy_thresholds` list succeeds — the
metric lookup is guarded by `if self.fuzzy_thresholds:`, so no validation
runs and no error naming the valid metric set is raised.  This refutes
the claim that EVERY construction with an invalid metric fails. -/
theorem c4_invalid_metric_accepted_when_thresholds_empty :
    fuzzyLevelsDict "bogus" = none ∧
    DateComparison.init (ColExpr.raw "d") none false true false "bogus" []
        [1] ["month"]
      = Except.ok
          { col_expression := ColExpr.raw "d"
            fuzzy_thresholds := []
            date_thresholds := [1]
            date_metrics := ["month"]
            date_format := none
            invalid_dates_as_null := false
            separate_1st_january := false
            exact_match := true
            fuzzy_level := none
            fuzzy_metric := none } :=
  ⟨rfl, rfl⟩

/-- C4 (amended): whenever `fuzzy_thresholds` is NON-EMPTY, constructing a
`DateComparison` or `EmailComparison` with a fuzzy metric outside
`_fuzzy_levels` fails immediately with the `ValueError` whose message
(`invalidFuzzyMetricMessage`) names the valid metric set
(`AVAILABLE_METRICS_STRING`); with an empty `fuzzy_thresholds` the metric
is not validated at all. -/
theorem c4_invalid_metric_rejected_when_thresholds_nonempty
    (metric : String) (hbad : fuzzyLevelsDict metric = none)
    (col : ColExpr) (fmt : Option String) (b1 b2 b3 : Bool)
    (ft : List ℚ) (hft : ft ≠ []) (dts : List ℚ) (dms : List String)
    (b4 : Bool) (re : String) (b5 b6 b7 b8 : Bool) :
    DateComparison.init col fmt b1 b2 b3 metric ft dts dms
      = Except.error
          (PyError.valueError (invalidFuzzyMetricMessage metric)) ∧
    EmailComparison.init col b4 re b5 b6 b7 b8 metric ft
      = Except.error
          (PyError.valueError (invalidFuzzyMetricMessage metric)) := by
  have h1 : ft.isEmpty = false := isEmpty_false_of_ne_nil hft
  constructor
  · unfold DateComparison.init
    simp [h1, hbad]
  · unfold EmailComparison.init
    simp [h1, hbad]

/-- Witness for C4 (amended): the metric `"bogus"` with the non-empty
threshold list `[1]` is rejected by both constructors. -/
theorem c4_invalid_metric_rejected_witness :
    DateComparison.init (ColExpr.raw "e") none false true false "bogus" [1]
        [] []
      = Except.error
          (PyError.valueError (invalidFuzzyMetricMessage "bogus")) ∧
    EmailComparison.init (ColExpr.raw "e") false "" true true true false
        "bogus" [1]
      = Except.error
          (PyError.valueError (invalidFuzzyMetricMessage "bogus")) :=
  c4_invalid_metric_rejected_when_thresholds_nonempty "bogus" rfl
    (ColExpr.raw "e") none false true false [1] (by decide) [] []
    false "" true true true false

end Splink

namespace Splink

/-! ### Claim C5 -/

/-- A fuzzy level produced by a `_fuzzy_levels` entry is never a
`DatediffLevel`. -/
theorem isDatediff_fuzzy_apply (k : FuzzyLevelKind) (col : ColExpr) (t : ℚ) :
    (k.apply col t).isDatediff = false := by
  cases k <;> rfl

/-- Filtering a list of `DatediffLevel`s for `isDatediff` keeps it all. -/
theorem filter_isDatediff_datediff_map (dcol : ColExpr)
    (l : List (ℚ × String)) :
    ((l.map (fun p => ComparisonLevelCreator.DatediffLevel dcol p.1 p.2)).filter
        (fun x => x.isDatediff))
      = l.map (fun p => ComparisonLevelCreator.DatediffLevel dcol p.1 p.2) := by
  induction l with
  | nil => rfl
  | cons a as ih =>
      rw [List.map_cons, List.filter_cons_of_pos (by rfl), ih]

/-- Filtering fuzzy levels for `isDatediff` removes them all. -/
theorem filter_isDatediff_fuzzy_map (k : FuzzyLevelKind) (col : ColExpr)
    (l : List ℚ) :
    ((l.map (k.apply col)).filter (fun x => x.isDatediff)) = [] := by
  induction l with
  | nil => rfl
  | cons a as ih =>
      rw [List.map_cons,
        List.filter_cons_of_neg (by simp [isDatediff_fuzzy_apply]), ih]

/-- An `isEmpty` list is nil. -/
theorem eq_nil_of_isEmpty {α : Type} {l : List α} (h : l.isEmpty = true) :
    l = [] := by
  cases l with
  | nil => rfl
  | cons a as => exact Bool.noConfusion h

/-- C5: mismatched threshold/metric list lengths are not validated —
`DatediffAtThresholds.__init__` is total and `DateComparison.__init__`
accepts any date lists (shown with its default fuzzy metric) — and the
`zip` in `create_comparison_levels` silently truncates: the `DatediffLevel`s
produced are exactly the pairs of the i-th threshold with the i-th metric,
and their number is the length of the shorter list. -/
theorem c5_datediff_zip_truncates :
    (∀ (col : ColExpr) (ms : List String) (ts : List ℚ) (b1 : Bool)
        (fmt : Option String) (b2 b3 : Bool), ts.length ≠ ms.length →
        ((DatediffAtThresholds.init col ms ts b1 fmt
              b2 b3).create_comparison_levels.filter
            (fun l => l.isDatediff))
          = (ts.zip ms).map
              (fun p => ComparisonLevelCreator.DatediffLevel
                (if b1 then col.try_parse_date fmt else col) p.1 p.2) ∧
        ((DatediffAtThresholds.init col ms ts b1 fmt
              b2 b3).create_comparison_levels.filter
            (fun l => l.isDatediff)).length = min ts.length ms.length) ∧
    (∀ (col : ColExpr) (fmt : Option String) (b1 b2 b3 : Bool)
        (ft dts : List ℚ) (dms : List String), dts.length ≠ dms.length →
        (DateComparison.init col fmt b1 b2 b3
              DateComparison.fuzzy_metric_default ft dts dms).map
            (fun d => (d.date_thresholds, d.date_metrics))
          = Except.ok (dts, dms)) ∧
    (∀ (d : DateComparison) (ls : List ComparisonLevelCreator),
        d.create_comparison_levels = Except.ok ls →
        (ls.filter (fun l => l.isDatediff))
          = (d.date_thresholds.zip d.date_metrics).map
              (fun p => ComparisonLevelCreator.DatediffLevel
                d.col_expression p.1 p.2) ∧
        (ls.filter (fun l => l.isDatediff)).length
          = min d.date_thresholds.length d.date_metrics.length) := by
  refine ⟨?_, ?_, ?_⟩
  · intro col ms ts b1 fmt b2 b3 _
    have hfil :
        ((DatediffAtThresholds.init col ms ts b1 fmt
              b2 b3).create_comparison_levels.filter
            (fun l => l.isDatediff))
          = (ts.zip ms).map
              (fun p => ComparisonLevelCreator.DatediffLevel
                (if b1 then col.try_parse_date fmt else col) p.1 p.2) := by
      unfold DatediffAtThresholds.create_comparison_levels
      simp only [DatediffAtThresholds.init]
      rw [List.filter_append, List.filter_append]
      rw [filter_isDatediff_datediff_map]
      simp [ComparisonLevelCreator.isDatediff]
    refine ⟨hfil, ?_⟩
    rw [hfil]
    simp [List.length_zip]
  · intro col fmt b1 b2 b3 ft dts dms _
    cases hft : ft.isEmpty with
    | true =>
        simp [DateComparison.init, hft, Except.map]
    | false =>
        have hk : fuzzyLevelsDict DateComparison.fuzzy_metric_default
            = some FuzzyLevelKind.damerau_levenshtein := rfl
        simp [DateComparison.init, hft, hk, Except.map]
  · intro d ls hok
    unfold DateComparison.create_comparison_levels at hok
    have main :
        ∀ (fp : List ComparisonLevelCreator),
          (fp.filter (fun l => l.isDatediff)) = [] →
          (((([ComparisonLevelCreator.NullLevel d.col_expression d.date_format
                  (some d.invalid_dates_as_null)]
              ++ (if d.separate_1st_january then
                    [DateComparison.janFirstLevel d.col_expression] else [])
              ++ (if d.exact_match then
                    [ComparisonLevelCreator.ExactMatchLevel d.col_expression
                      false] else []))
              ++ fp
              ++ (if d.date_thresholds.isEmpty then []
                  else (d.date_thresholds.zip d.date_metrics).map
                    (fun p => ComparisonLevelCreator.DatediffLevel
                      d.col_expression p.1 p.2))
              ++ [ComparisonLevelCreator.ElseLevel]).filter
                (fun l => l.isDatediff))
            = (d.date_thresholds.zip d.date_metrics).map
                (fun p => ComparisonLevelCreator.DatediffLevel
                  d.col_expression p.1 p.2)) := by
      intro fp hfp
      rw [List.filter_append, List.filter_append, List.filter_append,
        List.filter_append, List.filter_append, hfp]
      cases hdt : d.date_thresholds.isEmpty with
      | true =>
          have hnil : d.date_thresholds = [] := eq_nil_of_isEmpty hdt
          rw [if_pos (rfl : (true : Bool) = true)]
          by_cases hsep : d.separate_1st_january <;>
            by_cases hex : d.exact_match <;>
              simp [hnil, hsep, hex, ComparisonLevelCreator.isDatediff,
                DateComparison.janFirstLevel]
      | false =>
          rw [if_neg (show ¬ ((false : Bool) = true) from by simp),
            filter_isDatediff_datediff_map]
          by_cases hsep : d.separate_1st_january <;>
            by_cases hex : d.exact_match <;>
              simp [hsep, hex, ComparisonLevelCreator.isDatediff,
                DateComparison.janFirstLevel]
    cases h1 : d.fuzzy_thresholds.isEmpty with
    | true =>
        simp only [h1, if_true, exceptPure_eq_ok, exceptBind_ok,
          Except.ok.injEq] at hok
        subst hok
        refine ⟨main [] rfl, ?_⟩
        rw [main [] rfl]
        simp [List.length_zip]
    | false =>
        cases hfl : d.fuzzy_level with
        | none =>
            simp only [h1, hfl, Bool.false_eq_true, if_false,
              exceptBind_error] at hok
            exact Except.noConfusion hok
        | some k =>
            simp only [h1, hfl, Bool.false_eq_true, if_false,
              exceptPure_eq_ok, exceptBind_ok, Except.ok.injEq] at hok
            subst hok
            refine ⟨main _ (filter_isDatediff_fuzzy_map k _ _), ?_⟩
            rw [main _ (filter_isDatediff_fuzzy_map k _ _)]
            simp [List.length_zip]

/-- Witness for C5: `DatediffAtThresholds` with two thresholds but only
one metric silently produces exactly one `DatediffLevel`. -/
theorem c5_datediff_zip_truncates_witness :
    ((DatediffAtThresholds.init (ColExpr.raw "d") ["month"] [1, 2] false
          none false true).create_comparison_levels.filter
        (fun l => l.isDatediff))
      = [ComparisonLevelCreator.DatediffLevel (ColExpr.raw "d") 1 "month"] ∧
    ((DatediffAtThresholds.init (ColExpr.raw "d") ["month"] [1, 2] false
          none false true).create_comparison_levels.filter
        (fun l => l.isDatediff)).length = 1 :=
  c5_datediff_zip_truncates.1 (ColExpr.raw "d") ["month"] [1, 2] false
    none false true (by decide)

end Splink

namespace Splink

/-! ### Claim C6 -/

/-- C6: with `separate_1st_january=True` and `include_exact_match_level=True`,
the level list places the 1st-January level (`And` of the Jan-1 custom
condition and an exact match) at position 1 — right after the null level —
and the general `ExactMatchLevel` at position 2, i.e. strictly later. -/
theorem c6_jan_first_level_before_exact_match
    (d : DateComparison) (ls : List ComparisonLevelCreator)
    (hsep : d.separate_1st_january = true) (hex : d.exact_match = true)
    (hok : d.create_comparison_levels = Except.ok ls) :
    ls.get? 1 = some (DateComparison.janFirstLevel d.col_expression) ∧
    ls.get? 2
      = some (ComparisonLevelCreator.ExactMatchLevel d.col_expression
          false) := by
  unfold DateComparison.create_comparison_levels at hok
  cases h1 : d.fuzzy_thresholds.isEmpty with
  | true =>
      simp only [h1, if_true, exceptPure_eq_ok, exceptBind_ok,
        Except.ok.injEq] at hok
      subst hok
      simp [hsep, hex]
  | false =>
      cases hfl : d.fuzzy_level with
      | none =>
          simp only [h1, hfl, Bool.false_eq_true, if_false,
            exceptBind_error] at hok
          exact Except.noConfusion hok
      | some k =>
          simp only [h1, hfl, Bool.false_eq_true, if_false, exceptPure_eq_ok,
            exceptBind_ok, Except.ok.injEq] at hok
          subst hok
          simp [hsep, hex]

/-- Witness for C6: a concrete `DateComparison` with both flags on. -/
theorem c6_jan_first_level_before_exact_match_witness :
    ([ComparisonLevelCreator.NullLevel (ColExpr.raw "dob") none (some false),
      DateComparison.janFirstLevel (ColExpr.raw "dob"),
      ComparisonLevelCreator.ExactMatchLevel (ColExpr.raw "dob") false,
      ComparisonLevelCreator.DamerauLevenshteinLevel (ColExpr.raw "dob") 1,
      ComparisonLevelCreator.DatediffLevel (ColExpr.raw "dob") 1 "month",
      ComparisonLevelCreator.ElseLevel].get? 1
        = some (DateComparison.janFirstLevel (ColExpr.raw "dob"))) ∧
    ([ComparisonLevelCreator.NullLevel (ColExpr.raw "dob") none (some false),
      DateComparison.janFirstLevel (ColExpr.raw "dob"),
      ComparisonLevelCreator.ExactMatchLevel (ColExpr.raw "dob") false,
      ComparisonLevelCreator.DamerauLevenshteinLevel (ColExpr.raw "dob") 1,
      ComparisonLevelCreator.DatediffLevel (ColExpr.raw "dob") 1 "month",
      ComparisonLevelCreator.ElseLevel].get? 2
        = some (ComparisonLevelCreator.ExactMatchLevel (ColExpr.raw "dob")
            false)) :=
  c6_jan_first_level_before_exact_match
    { col_expression := ColExpr.raw "dob"
      fuzzy_thresholds := [1]
      date_thresholds := [1]
      date_metrics := ["month"]
      date_format := none
      invalid_dates_as_null := false
      separate_1st_january := true
      exact_match := true
      fuzzy_level := some FuzzyLevelKind.damerau_levenshtein
      fuzzy_metric := some "damerau_levenshtein" }
    _ rfl rfl rfl

end Splink

namespace Splink

/-! ### Claim C7 -/

/-- C7: each entry of a `CustomComparison` level list is normalized by
`_convert_to_creator`: a `ComparisonLevelCreator` is kept as is, a dict is
deserialized into a `CustomLevel` by keyword expansion, and an entry of
any other type makes `create_comparison_levels()` raise the `ValueError`
naming the (first such) entry and its type. -/
theorem c7_custom_levels_normalized :
    (∀ (c : ComparisonLevelCreator),
        CustomComparison.convert_to_creator (ComparisonLevelInput.creator c)
          = Except.ok c) ∧
    (∀ (sql : String) (lbl : Option String),
        CustomComparison.convert_to_creator
            (ComparisonLevelInput.dict sql lbl)
          = Except.ok (ComparisonLevelCreator.CustomLevel sql lbl)) ∧
    (∀ (cc : CustomComparison) (v t : String),
        firstBadEntry cc.comparison_levels = some (v, t) →
        cc.create_comparison_levels
          = Except.error
              (PyError.valueError (convertToCreatorErrorMessage v t))) := by
  refine ⟨fun _ => rfl, fun _ _ => rfl, ?_⟩
  suffices hmain : ∀ (entries : List ComparisonLevelInput) (v t : String),
      firstBadEntry entries = some (v, t) →
      entries.mapM CustomComparison.convert_to_creator
        = Except.error
            (PyError.valueError (convertToCreatorErrorMessage v t)) by
    intro cc v t hbad
    exact hmain cc.comparison_levels v t hbad
  intro entries
  induction entries with
  | nil => intro v t h; exact Option.noConfusion h
  | cons x rest ih =>
      intro v t h
      cases x with
      | creator c =>
          have h2 : firstBadEntry rest = some (v, t) := h
          rw [List.mapM_cons, ih v t h2]
          rfl
      | dict sql lbl =>
          have h2 : firstBadEntry rest = some (v, t) := h
          rw [List.mapM_cons, ih v t h2]
          rfl
      | otherValue v2 t2 =>
          have h2 : (v2, t2) = (v, t) := Option.some.inj h
          cases h2
          rw [List.mapM_cons]
          rfl

/-- Witness for C7: a `CustomComparison` whose second entry is an `int`
raises the `ValueError` naming that entry and its type. -/
theorem c7_custom_levels_normalized_witness :
    CustomComparison.create_comparison_levels
        { output_column_name := "x"
          comparison_levels :=
            [ComparisonLevelInput.creator ComparisonLevelCreator.ElseLevel,
             ComparisonLevelInput.otherValue "3" "int"]
          description := none }
      = Except.error
          (PyError.valueError (convertToCreatorErrorMessage "3" "int")) :=
  c7_custom_levels_normalized.2.2
    { output_column_name := "x"
      comparison_levels :=
        [ComparisonLevelInput.creator ComparisonLevelCreator.ElseLevel,
         ComparisonLevelInput.otherValue "3" "int"]
      description := none }
    "3" "int" rfl

end Splink

namespace Splink

/-! ### Claim C8 -/

/-- C8: the invalid-as-null policy is a per-comparison flag with differing
defaults.  `PostcodeComparison` and `EmailComparison` store their validity
regex — and hence pass it to the `NullLevel` — only when
`invalid_postcodes_as_null` / `invalid_emails_as_null` is true (both
default to false, so by default the `NullLevel` receives no pattern),
while `DatediffAtThresholds` defaults `invalid_dates_as_null` to true and
`DateComparison` defaults it to false. -/
theorem c8_invalid_as_null_policy_flags :
    (∀ (col : ColExpr) (re : String) (b2 b3 b4 b5 : Bool)
        (lat long : Option ColExpr) (kms : List ℚ),
        (PostcodeComparison.init col false re b2 b3 b4 b5 lat long
            kms).valid_postcode_regex = none ∧
        (PostcodeComparison.init col true re b2 b3 b4 b5 lat long
            kms).valid_postcode_regex = some re) ∧
    (∀ (col lat long : ColExpr) (re : String) (b2 b3 b4 b5 : Bool),
        ((PostcodeComparison.init col true re b2 b3 b4 b5 (some lat)
              (some long) [1]).create_comparison_levels).map List.head?
          = Except.ok (some (ComparisonLevelCreator.NullLevel col (some re)
              none)) ∧
        ((PostcodeComparison.init col false re b2 b3 b4 b5 (some lat)
              (some long) [1]).create_comparison_levels).map List.head?
          = Except.ok (some (ComparisonLevelCreator.NullLevel col none
              none))) ∧
    (∀ (col : ColExpr) (re : String) (b2 b3 b4 b5 : Bool),
        (EmailComparison.init col true re b2 b3 b4 b5
            EmailComparison.fuzzy_metric_default
            EmailComparison.fuzzy_thresholds_default).map
            (fun e => e.valid_email_regex)
          = Except.ok (some re) ∧
        (EmailComparison.init col false re b2 b3 b4 b5
            EmailComparison.fuzzy_metric_default
            EmailComparison.fuzzy_thresholds_default).map
            (fun e => e.valid_email_regex)
          = Except.ok none) ∧
    (∀ (col : ColExpr),
        (PostcodeComparison.init_defaults col).valid_postcode_regex
          = none) ∧
    (∀ (col : ColExpr),
        (EmailComparison.init_defaults col).map
            (fun e => e.valid_email_regex)
          = Except.ok none) ∧
    (∀ (col : ColExpr) (ms : List String) (ts : List ℚ),
        (DatediffAtThresholds.init_defaults col ms
            ts).invalid_dates_as_null = true) ∧
    (∀ (col : ColExpr),
        (DateComparison.init_defaults col).map
            (fun d => d.invalid_dates_as_null)
          = Except.ok false) :=
  ⟨fun _ _ _ _ _ _ _ _ _ => ⟨rfl, rfl⟩,
   fun _ _ _ _ _ _ _ _ => ⟨rfl, rfl⟩,
   fun _ _ _ _ _ _ => ⟨rfl, rfl⟩,
   fun _ => rfl,
   fun _ => rfl,
   fun _ _ _ => rfl,
   fun _ => rfl⟩

end Splink

namespace Splink

/-! ### Claim C9 -/

/-- C9: with an empty (falsy) `km_thresholds` argument — including the
default `km_thresholds=[]` — `PostcodeComparison.__init__` never sets the
`km_thresholds` attribute, so both `create_comparison_levels()` and
`create_description()` raise `AttributeError` instead of returning a
comparison without distance-in-km levels. -/
theorem c9_empty_km_thresholds_attribute_error
    (col : ColExpr) (b1 : Bool) (re : String) (b2 b3 b4 b5 : Bool)
    (lat long : Option ColExpr) :
    (PostcodeComparison.init col b1 re b2 b3 b4 b5 lat long
        []).km_thresholds = none ∧
    (PostcodeComparison.init col b1 re b2 b3 b4 b5 lat long
        []).create_comparison_levels
      = Except.error
          (PyError.attributeError kmThresholdsAttributeErrorMessage) ∧
    (PostcodeComparison.init col b1 re b2 b3 b4 b5 lat long
        []).create_description
      = Except.error
          (PyError.attributeError kmThresholdsAttributeErrorMessage) :=
  ⟨rfl, rfl, rfl⟩

/-- Witness for C9 (its binders are data, not hypotheses, but the default
construction is the canonical failing input): `PostcodeComparison("pc")`
with all defaults cannot build its levels or its description. -/
theorem c9_empty_km_thresholds_attribute_error_witness :
    (PostcodeComparison.init_defaults (ColExpr.raw "pc")).km_thresholds
        = none ∧
    (PostcodeComparison.init_defaults
        (ColExpr.raw "pc")).create_comparison_levels
      = Except.error
          (PyError.attributeError kmThresholdsAttributeErrorMessage) ∧
    (PostcodeComparison.init_defaults
        (ColExpr.raw "pc")).create_description
      = Except.error
          (PyError.attributeError kmThresholdsAttributeErrorMessage) :=
  c9_empty_km_thresholds_attribute_error (ColExpr.raw "pc")
    PostcodeComparison.invalid_postcodes_as_null_default
    VALID_POSTCODE_REGEX true true true true none none

end Splink

namespace Splink

/-! ### Claim C10 -/

/-- A string is a prefix of itself followed by anything. -/
theorem strStartsWith_append (pre rest : String) :
    strStartsWith pre (pre ++ rest) = true := by
  simp [strStartsWith, String.data_append, List.take_left]

/-- Concatenations: `a ++ b` is a prefix of `a ++ (b ++ c)`. -/
theorem strStartsWith_append_assoc (a b c : String) :
    strStartsWith (a ++ b) (a ++ (b ++ c)) = true := by
  rw [← String.append_assoc]
  exact strStartsWith_append _ _

/-- C10: with a non-empty `fuzzy_thresholds` (resp. non-empty
`km_thresholds`), `create_description()` ASSIGNS the fuzzy (resp. km)
clause over the accumulated description instead of appending: the earlier
exact-match / username (resp. exact/sector/district/area) segments are
discarded — the description is the same as if those flags were off — and
the returned string starts with the fuzzy-metric (resp. km) clause. -/
theorem c10_description_discards_earlier_segments :
    (∀ (d : DateComparison), d.fuzzy_thresholds ≠ [] →
        d.create_description
          = DateComparison.create_description { d with exact_match := false } ∧
        (∀ (fm s : String), d.fuzzy_metric = some fm →
            d.create_description = Except.ok s →
            strStartsWith (fm ++ " at threshold") s = true)) ∧
    (∀ (e : EmailComparison), e.fuzzy_thresholds ≠ [] →
        e.create_description
          = EmailComparison.create_description
              { e with exact_match := false, username_match := false } ∧
        (∀ (fm s : String), e.fuzzy_metric = some fm →
            e.create_description = Except.ok s →
            (e.username_fuzzy = true →
              strStartsWith (fm ++ " on username at threshold") s = true) ∧
            (e.username_fuzzy = false →
              strStartsWith (fm ++ " at threshold") s = true))) ∧
    (∀ (p : PostcodeComparison) (kms : List ℚ),
        p.km_thresholds = some kms → kms ≠ [] →
        p.create_description
          = PostcodeComparison.create_description
              { p with full_match := false, sector_match := false,
                       district_match := false, area_match := false } ∧
        (∀ (s : String), p.create_description = Except.ok s →
            strStartsWith "km distance within threshold" s = true)) := by
  refine ⟨?_, ?_, ?_⟩
  · intro d hft
    have h1 : d.fuzzy_thresholds.isEmpty = false := isEmpty_false_of_ne_nil hft
    constructor
    · unfold DateComparison.create_description
      cases hfm : d.fuzzy_metric <;> simp [h1, hfm]
    · intro fm s hfm hs
      unfold DateComparison.create_description at hs
      simp only [h1, Bool.false_eq_true, if_false, hfm, exceptPure_eq_ok,
        exceptBind_ok, Except.ok.injEq] at hs
      subst hs
      cases hdt : d.date_thresholds.isEmpty <;>
        simp only [hdt, Bool.false_eq_true, if_false, if_true,
          String.append_assoc] <;>
        exact strStartsWith_append_assoc _ _ _
  · intro e hft
    have h1 : e.fuzzy_thresholds.isEmpty = false := isEmpty_false_of_ne_nil hft
    constructor
    · unfold EmailComparison.create_description
      cases hfm : e.fuzzy_metric <;> simp [h1, hfm]
    · intro fm s hfm hs
      unfold EmailComparison.create_description at hs
      simp only [h1, Bool.false_eq_true, if_false, hfm, exceptPure_eq_ok,
        exceptBind_ok, Except.ok.injEq] at hs
      constructor
      · intro husr
        rw [husr] at hs
        simp only [if_true] at hs
        obtain rfl := Except.ok.inj hs
        cases hdm : e.domain_match <;>
          simp only [hdm, Bool.false_eq_true, if_false, if_true,
            String.append_assoc] <;>
          exact strStartsWith_append_assoc _ _ _
      · intro husr
        rw [husr] at hs
        simp only [Bool.false_eq_true, if_false] at hs
        obtain rfl := Except.ok.inj hs
        cases hdm : e.domain_match <;>
          simp only [hdm, Bool.false_eq_true, if_false, if_true,
            String.append_assoc] <;>
          exact strStartsWith_append_assoc _ _ _
  · intro p kms hkm hkne
    have h1 : kms.isEmpty = false := isEmpty_false_of_ne_nil hkne
    constructor
    · unfold PostcodeComparison.create_description
      simp [hkm, h1]
    · intro s hs
      unfold PostcodeComparison.create_description at hs
      simp only [hkm, h1, Bool.false_eq_true, if_false, exceptPure_eq_ok,
        exceptBind_ok, Except.ok.injEq] at hs
      subst hs
      simp only [String.append_assoc]
      exact strStartsWith_append _ _

/-- Witness for C10: a concrete `DateComparison` with exact match enabled
and one fuzzy threshold describes itself starting with the fuzzy clause,
with no trace of the exact-match segment. -/
theorem c10_description_discards_earlier_segments_witness :
    strStartsWith ("damerau_levenshtein" ++ " at threshold")
      "damerau_levenshtein at threshold 1 vs. anything else" = true :=
  ((c10_description_discards_earlier_segments.1
      { col_expression := ColExpr.raw "dob"
        fuzzy_thresholds := [1]
        date_thresholds := []
        date_metrics := []
        date_format := none
        invalid_dates_as_null := false
        separate_1st_january := false
        exact_match := true
        fuzzy_level := some FuzzyLevelKind.damerau_levenshtein
        fuzzy_metric := some "damerau_levenshtein" }
      (by decide)).2) "damerau_levenshtein"
    "damerau_levenshtein at threshold 1 vs. anything else" rfl rfl

end Splink
